import Mathlib

/-!
Shallow embedding of `src/claims.rs` from the `rust-jwt-simple` repository:
the JWT claim-set data model, its builder methods, and the validation routine
`JWTClaims::validate`.

Modelling conventions:

* `coarsetime::UnixTimeStamp`/`Duration` values (u64 tick counts) are modelled
  as `Nat`.  Subtraction on `coarsetime` durations saturates at zero, which is
  exactly `Nat` truncated subtraction; additions stay far below `2^64` for all
  realistic timestamps, so plain `Nat` addition is used.
* `HashSet<String>` is modelled as `Finset String`.  The source extracts the
  first iterator element of a set already known to have at most one element
  (`audiences.iter().next().map(to_string).unwrap_or_default()`), which is
  modelled as `(Finset.sort (· ≤ ·) audiences).headD ""`; for a set of at
  most one element this is the unique element (or `""` when empty), exactly
  what any iteration order yields, and it is executable.
* `Clock::now_since_epoch()` is an external clock read; `validate`, `create`
  and `with_custom_claims` take the clock reading `now` as an explicit
  argument, as the spec describes validation as a pure function of
  `(claim set, policy, current time)`.
* `rand` randomness in `create_nonce` is external; the base64-encoded nonce it
  would produce is taken as an argument.
* Rust `Result<T, Error>` becomes `Except Error T`; each `ensure!(cond, err)`
  block of `validate` becomes one named `check_*` definition, and `validate`
  sequences them with `>>=` in exactly the source order, so that the first
  failing check short-circuits with its error just as `ensure!`/`?` do.
-/

namespace JwtSimple

/-- The `JWTError` variants reachable from the code in `src/claims.rs`
(the enum itself lives in the crate's `error.rs`; only the variants raised or
matched by `claims.rs` are needed). -/
inductive Error where
  | OldTokenReused
  | ClockDrift
  | TokenIsTooOld
  | TokenNotValidYet
  | TokenHasExpired
  | RequiredIssuerMismatch
  | RequiredIssuerMissing
  | RequiredSubjectMismatch
  | RequiredSubjectMissing
  | RequiredNonceMismatch
  | RequiredNonceMissing
  | RequiredAudiencesMismatch
  | RequiredAudiencesMissing
  | TooManyAudiences
  deriving DecidableEq, Repr

/-- The default time tolerance, `DEFAULT_TIME_TOLERANCE_SECS` in the source. -/
def DEFAULT_TIME_TOLERANCE_SECS : Nat := 900

/-- Type representing the fact that no application-defined claims is
necessary (`NoCustomClaims` in the source). -/
structure NoCustomClaims where
  deriving DecidableEq, Repr

/-- The `audiences` property is usually an array (set), but some applications
may require it to be a string; both are supported (`Audiences` in the
source). -/
inductive Audiences where
  | AsSet (audiences : Finset String)
  | AsString (audience : String)
  deriving DecidableEq

/-- The predicate `Audiences::is_set`. -/
def Audiences.is_set : Audiences → Bool
  | .AsSet _ => true
  | _ => false

/-- The predicate `Audiences::is_string`. -/
def Audiences.is_string (a : Audiences) : Bool :=
  !a.is_set

/-- A set of JWT claims (`JWTClaims<CustomClaims>` in the source).  Field
order and optionality follow the Rust struct; the wire names (`iat`, `exp`,
`nbf`, ...) belong to the serialization layer and play no role here. -/
structure JWTClaims (CustomClaims : Type) where
  issued_at : Option Nat
  expires_at : Option Nat
  invalid_before : Option Nat
  issuer : Option String
  subject : Option String
  audiences : Option Audiences
  audiences_as_string : Bool
  jwt_id : Option String
  nonce : Option String
  custom : CustomClaims
  deriving DecidableEq

/-- Modelled from the spec: the `VerificationOptions` policy structure lives
in the crate's `common.rs`, which is not part of the given sources; its
fields and their optionality are exactly those read by
`JWTClaims::validate` in `claims.rs` and described in the spec section 3
(`time_tolerance`, `reject_before`, `max_validity`, `accept_future`,
`required_issuer`, `required_subject`, `required_nonce`,
`required_audiences`). -/
structure VerificationOptions where
  time_tolerance : Option Nat
  reject_before : Option Nat
  max_validity : Option Nat
  accept_future : Bool
  required_issuer : Option String
  required_subject : Option String
  required_nonce : Option String
  required_audiences : Option (Finset String)
  deriving DecidableEq

/-- The `ensure!(cond, err)` macro: succeed if `cond` holds, otherwise fail
with `err`. -/
def ensure (cond : Prop) [Decidable cond] (err : Error) : Except Error Unit :=
  if cond then .ok () else .error err

/-- First `validate` block: `if let Some(reject_before) = options.reject_before
{ ensure!(now <= reject_before, JWTError::OldTokenReused); }`. -/
def check_reject_before (options : VerificationOptions) (now : Nat) :
    Except Error Unit :=
  match options.reject_before with
  | some reject_before => ensure (now ≤ reject_before) .OldTokenReused
  | none => .ok ()

/-- Second `validate` block: the `issued_at` clock-drift check and, when
`max_validity` is set, the token-age check. -/
def check_issued_at {C : Type} (self : JWTClaims C)
    (options : VerificationOptions) (now time_tolerance : Nat) :
    Except Error Unit :=
  match self.issued_at with
  | some time_issued =>
    ensure (time_issued ≤ now + time_tolerance) .ClockDrift >>= fun _ =>
      match options.max_validity with
      | some max_validity =>
        ensure (now ≤ time_issued ∨ now - time_issued ≤ max_validity)
          .TokenIsTooOld
      | none => .ok ()
  | none => .ok ()

/-- Third `validate` block: unless `accept_future` is set, the
`invalid_before` ("not before") check. -/
def check_invalid_before {C : Type} (self : JWTClaims C)
    (options : VerificationOptions) (now : Nat) : Except Error Unit :=
  if options.accept_future then .ok ()
  else
    match self.invalid_before with
    | some invalid_before => ensure (now ≥ invalid_before) .TokenNotValidYet
    | none => .ok ()

/-- Fourth `validate` block: the expiry check
`ensure!(now - time_tolerance <= expires_at, JWTError::TokenHasExpired)`. -/
def check_expires_at {C : Type} (self : JWTClaims C)
    (now time_tolerance : Nat) : Except Error Unit :=
  match self.expires_at with
  | some expires_at =>
    ensure (now - time_tolerance ≤ expires_at) .TokenHasExpired
  | none => .ok ()

/-- Fifth `validate` block: the `required_issuer` check. -/
def check_required_issuer {C : Type} (self : JWTClaims C)
    (options : VerificationOptions) : Except Error Unit :=
  match options.required_issuer with
  | some required_issuer =>
    match self.issuer with
    | some issuer => ensure (issuer = required_issuer) .RequiredIssuerMismatch
    | none => .error .RequiredIssuerMissing
  | none => .ok ()

/-- Sixth `validate` block: the `required_subject` check. -/
def check_required_subject {C : Type} (self : JWTClaims C)
    (options : VerificationOptions) : Except Error Unit :=
  match options.required_subject with
  | some required_subject =>
    match self.subject with
    | some subject =>
      ensure (subject = required_subject) .RequiredSubjectMismatch
    | none => .error .RequiredSubjectMissing
  | none => .ok ()

/-- Seventh `validate` block: the `required_nonce` check. -/
def check_required_nonce {C : Type} (self : JWTClaims C)
    (options : VerificationOptions) : Except Error Unit :=
  match options.required_nonce with
  | some required_nonce =>
    match self.nonce with
    | some nonce => ensure (nonce = required_nonce) .RequiredNonceMismatch
    | none => .error .RequiredNonceMissing
  | none => .ok ()

/-- The normalization performed inline by the `required_audiences` check of
`validate`: a string audience becomes the one-element set holding it
(`single_audience` in the source), a set audience is used as is. -/
def Audiences.to_set : Audiences → Finset String
  | .AsString audience => {audience}
  | .AsSet audiences => audiences

/-- Eighth `validate` block: the `required_audiences` check.  A string
audience is normalized to its one-element set; every required audience must
be contained in the claim's audience set; when the claim carries no audience,
the check fails only if the required set is non-empty. -/
def check_required_audiences {C : Type} (self : JWTClaims C)
    (options : VerificationOptions) : Except Error Unit :=
  match options.required_audiences with
  | some required_audiences =>
    match self.audiences with
    | some auds =>
      ensure (∀ required_audience ∈ required_audiences,
          required_audience ∈ auds.to_set) .RequiredAudiencesMismatch
    | none =>
      if required_audiences = ∅ then .ok ()
      else .error .RequiredAudiencesMissing
  | none => .ok ()

/-- The validation routine `JWTClaims::validate`: the checks above, in exactly
the source order, with the first failure short-circuiting.  `now` is the
`Clock::now_since_epoch()` reading taken at the top of the Rust function. -/
def validate {C : Type} (self : JWTClaims C) (options : VerificationOptions)
    (now : Nat) : Except Error Unit :=
  let time_tolerance :=
    options.time_tolerance.getD DEFAULT_TIME_TOLERANCE_SECS
  check_reject_before options now >>= fun _ =>
  check_issued_at self options now time_tolerance >>= fun _ =>
  check_invalid_before self options now >>= fun _ =>
  check_expires_at self now time_tolerance >>= fun _ =>
  check_required_issuer self options >>= fun _ =>
  check_required_subject self options >>= fun _ =>
  check_required_nonce self options >>= fun _ =>
  check_required_audiences self options

/-- Builder `JWTClaims::invalid_before` (named `set_invalid_before` here
because the field of the same name already takes the Rust name). -/
def JWTClaims.set_invalid_before {C : Type} (self : JWTClaims C)
    (unix_timestamp : Nat) : JWTClaims C :=
  { self with invalid_before := some unix_timestamp }

/-- Builder `JWTClaims::with_issuer`. -/
def JWTClaims.with_issuer {C : Type} (self : JWTClaims C) (issuer : String) :
    JWTClaims C :=
  { self with issuer := some issuer }

/-- Builder `JWTClaims::with_subject`. -/
def JWTClaims.with_subject {C : Type} (self : JWTClaims C) (subject : String) :
    JWTClaims C :=
  { self with subject := some subject }

/-- The private helper `JWTClaims::convert_audiences_format`: flips the
stored `audiences` value to the representation selected by the
`audiences_as_string` flag.  Set to string fails with `TooManyAudiences` when
the set has more than one element; string to set maps the empty string to the
empty set and any other string to its one-element set; when the stored value
already matches the flag (or is absent) the claim set is returned as is. -/
def convert_audiences_format {C : Type} (self : JWTClaims C) :
    Except Error (JWTClaims C) :=
  if self.audiences_as_string then
    match self.audiences with
    | some (.AsString _) | none => .ok self
    | some (.AsSet audiences) =>
      if audiences.card > 1 then .error .TooManyAudiences
      else
        .ok { self with
          audiences := some (.AsString ((audiences.sort (· ≤ ·)).headD "")) }
  else
    match self.audiences with
    | some (.AsSet _) | none => .ok self
    | some (.AsString audiences) =>
      .ok { self with
        audiences := some (.AsSet
          (if audiences = "" then ∅ else {audiences})) }

/-- Builder `JWTClaims::audiences_as_string` (named `set_audiences_as_string`
here because the field of the same name already takes the Rust name): store
the new mode flag, then re-convert the existing audience value to match. -/
def JWTClaims.set_audiences_as_string {C : Type} (self : JWTClaims C)
    (serialize_as_string : Bool) : Except Error (JWTClaims C) :=
  convert_audiences_format
    { self with audiences_as_string := serialize_as_string }

/-- Builder `JWTClaims::with_audiences`: store the set, then apply the
current mode flag via `convert_audiences_format`. -/
def JWTClaims.with_audiences {C : Type} (self : JWTClaims C)
    (audiences : Finset String) : Except Error (JWTClaims C) :=
  convert_audiences_format
    { self with audiences := some (.AsSet audiences) }

/-- Builder `JWTClaims::with_jwt_id`. -/
def JWTClaims.with_jwt_id {C : Type} (self : JWTClaims C) (jwt_id : String) :
    JWTClaims C :=
  { self with jwt_id := some jwt_id }

/-- Builder `JWTClaims::with_nonce`. -/
def JWTClaims.with_nonce {C : Type} (self : JWTClaims C) (nonce : String) :
    JWTClaims C :=
  { self with nonce := some nonce }

/-- Builder `JWTClaims::create_nonce`: generates 24 random bytes and stores
their unpadded URL-safe base64 encoding as the nonce.  The randomness and the
encoding are external; the encoded string the call would produce is taken as
the argument `nonce`. -/
def JWTClaims.create_nonce {C : Type} (self : JWTClaims C) (nonce : String) :
    JWTClaims C :=
  { self with nonce := some nonce }

/-- Constructor `Claims::create`: stamp `issued_at` and `invalid_before` with
the clock reading `now`, `expires_at` with `now + valid_for`, and leave every
other field empty (`audiences_as_string` defaults to `false`). -/
def Claims.create (now valid_for : Nat) : JWTClaims NoCustomClaims :=
  { issued_at := some now
    expires_at := some (now + valid_for)
    invalid_before := some now
    audiences := none
    audiences_as_string := false
    issuer := none
    jwt_id := none
    subject := none
    nonce := none
    custom := {} }

/-- Constructor `Claims::with_custom_claims`: identical timestamp logic to
`Claims::create`, with the caller-supplied custom payload. -/
def Claims.with_custom_claims {C : Type} (custom_claims : C)
    (now valid_for : Nat) : JWTClaims C :=
  { issued_at := some now
    expires_at := some (now + valid_for)
    invalid_before := some now
    audiences := none
    audiences_as_string := false
    issuer := none
    jwt_id := none
    subject := none
    nonce := none
    custom := custom_claims }

/-- The state of the consumed `self` at the instant
`JWTClaims::audiences_as_string` returns: the method first assigns the new
mode flag to `self.audiences_as_string`, then runs
`convert_audiences_format`, whose only mutation of `self.audiences` happens
after its `TooManyAudiences` bail-out.  The first component is the method's
return value; the second is the state `self` holds at the return (on failure,
that state is dropped by Rust move semantics, never handed back to the
caller). -/
def JWTClaims.set_audiences_as_string_run {C : Type} (self : JWTClaims C)
    (serialize_as_string : Bool) :
    Except Error (JWTClaims C) × JWTClaims C :=
  let staged := { self with audiences_as_string := serialize_as_string }
  match convert_audiences_format staged with
  | .ok updated => (.ok updated, updated)
  | .error e => (.error e, staged)

/-- The state of the consumed `self` at the instant
`JWTClaims::with_audiences` returns, in the same sense as
`set_audiences_as_string_run`: the audiences field is overwritten with the
new set before the conversion runs, so at a `TooManyAudiences` bail-out the
dropped `self` already carries the new set. -/
def JWTClaims.with_audiences_run {C : Type} (self : JWTClaims C)
    (audiences : Finset String) :
    Except Error (JWTClaims C) × JWTClaims C :=
  let staged := { self with audiences := some (.AsSet audiences) }
  match convert_audiences_format staged with
  | .ok updated => (.ok updated, updated)
  | .error e => (.error e, staged)

/-- The invariant relating the stored audience representation to the
`audiences_as_string` mode flag: when an audience value is present, its
variant is `AsString` exactly when the flag is `true` and `AsSet` exactly
when the flag is `false`. -/
def mode_invariant {C : Type} (self : JWTClaims C) : Prop :=
  match self.audiences with
  | none => True
  | some (.AsString _) => self.audiences_as_string = true
  | some (.AsSet _) => self.audiences_as_string = false

/-- Claim sets obtainable from the two constructors followed by any sequence
of successful builder operations. -/
inductive Reachable : {C : Type} → JWTClaims C → Prop where
  | create (now valid_for : Nat) : Reachable (Claims.create now valid_for)
  | with_custom_claims {C : Type} (custom_claims : C) (now valid_for : Nat) :
      Reachable (Claims.with_custom_claims custom_claims now valid_for)
  | set_invalid_before {C : Type} {self : JWTClaims C} (t : Nat)
      (h : Reachable self) : Reachable (self.set_invalid_before t)
  | with_issuer {C : Type} {self : JWTClaims C} (s : String)
      (h : Reachable self) : Reachable (self.with_issuer s)
  | with_subject {C : Type} {self : JWTClaims C} (s : String)
      (h : Reachable self) : Reachable (self.with_subject s)
  | with_jwt_id {C : Type} {self : JWTClaims C} (s : String)
      (h : Reachable self) : Reachable (self.with_jwt_id s)
  | with_nonce {C : Type} {self : JWTClaims C} (s : String)
      (h : Reachable self) : Reachable (self.with_nonce s)
  | create_nonce {C : Type} {self : JWTClaims C} (s : String)
      (h : Reachable self) : Reachable (self.create_nonce s)
  | with_audiences {C : Type} {self updated : JWTClaims C}
      (audiences : Finset String) (h : Reachable self)
      (hok : self.with_audiences audiences = .ok updated) :
      Reachable updated
  | set_audiences_as_string {C : Type} {self updated : JWTClaims C}
      (b : Bool) (h : Reachable self)
      (hok : self.set_audiences_as_string b = .ok updated) :
      Reachable updated

/-! Helper lemmas about `Except` sequencing and the individual checks. -/

theorem bind_unit_eq_ok_iff {ε α : Type} (x : Except ε Unit)
    (f : Unit → Except ε α) (a : α) :
    (x >>= f) = .ok a ↔ x = .ok () ∧ f () = .ok a := by
  cases x with
  | ok u => cases u; simp [Bind.bind, Except.bind]
  | error e => simp [Bind.bind, Except.bind]

theorem bind_unit_eq_error_iff {ε α : Type} (x : Except ε Unit)
    (f : Unit → Except ε α) (e : ε) :
    (x >>= f) = .error e ↔ x = .error e ∨ (x = .ok () ∧ f () = .error e) := by
  cases x with
  | ok u => cases u; simp [Bind.bind, Except.bind]
  | error e => simp [Bind.bind, Except.bind]

theorem ensure_eq_ok_iff (cond : Prop) [Decidable cond] (err : Error) :
    ensure cond err = .ok () ↔ cond := by
  by_cases h : cond <;> simp [ensure, h]

theorem ensure_eq_error_iff (cond : Prop) [Decidable cond] (err e : Error) :
    ensure cond err = .error e ↔ ¬cond ∧ e = err := by
  by_cases h : cond <;> simp [ensure, h, eq_comm]

theorem check_reject_before_eq_ok_iff (o : VerificationOptions) (now : Nat) :
    check_reject_before o now = .ok () ↔
      ∀ rb ∈ o.reject_before, now ≤ rb := by
  cases h : o.reject_before <;>
    simp [check_reject_before, h, ensure_eq_ok_iff]

theorem check_reject_before_eq_error_iff (o : VerificationOptions)
    (now : Nat) (e : Error) :
    check_reject_before o now = .error e ↔
      ∃ rb, o.reject_before = some rb ∧ ¬now ≤ rb ∧ e = .OldTokenReused := by
  cases h : o.reject_before <;>
    simp [check_reject_before, h, ensure_eq_error_iff]

theorem check_issued_at_eq_ok_iff {C : Type} (self : JWTClaims C)
    (o : VerificationOptions) (now tol : Nat) :
    check_issued_at self o now tol = .ok () ↔
      ∀ t ∈ self.issued_at, t ≤ now + tol ∧
        ∀ m ∈ o.max_validity, (now ≤ t ∨ now - t ≤ m) := by
  cases h : self.issued_at <;> cases h2 : o.max_validity <;>
    simp [check_issued_at, h, h2, bind_unit_eq_ok_iff, ensure_eq_ok_iff]

theorem check_issued_at_eq_error_iff {C : Type} (self : JWTClaims C)
    (o : VerificationOptions) (now tol : Nat) (e : Error) :
    check_issued_at self o now tol = .error e ↔
      ∃ t, self.issued_at = some t ∧
        ((¬t ≤ now + tol ∧ e = .ClockDrift) ∨
          (t ≤ now + tol ∧ ∃ m, o.max_validity = some m ∧
            ¬now ≤ t ∧ ¬now - t ≤ m ∧ e = .TokenIsTooOld)) := by
  cases h : self.issued_at <;> cases h2 : o.max_validity <;>
    simp [check_issued_at, h, h2, bind_unit_eq_error_iff, ensure_eq_ok_iff,
      ensure_eq_error_iff, and_assoc, not_or]

theorem check_invalid_before_eq_ok_iff {C : Type} (self : JWTClaims C)
    (o : VerificationOptions) (now : Nat) :
    check_invalid_before self o now = .ok () ↔
      (o.accept_future = true ∨ ∀ t ∈ self.invalid_before, now ≥ t) := by
  cases haf : o.accept_future <;> cases h : self.invalid_before <;>
    simp [check_invalid_before, haf, h, ensure_eq_ok_iff]

theorem check_invalid_before_eq_error_iff {C : Type} (self : JWTClaims C)
    (o : VerificationOptions) (now : Nat) (e : Error) :
    check_invalid_before self o now = .error e ↔
      o.accept_future = false ∧ ∃ t, self.invalid_before = some t ∧
        ¬now ≥ t ∧ e = .TokenNotValidYet := by
  cases haf : o.accept_future <;> cases h : self.invalid_before <;>
    simp [check_invalid_before, haf, h, ensure_eq_error_iff]

theorem check_expires_at_eq_ok_iff {C : Type} (self : JWTClaims C)
    (now tol : Nat) :
    check_expires_at self now tol = .ok () ↔
      ∀ T ∈ self.expires_at, now - tol ≤ T := by
  cases h : self.expires_at <;>
    simp [check_expires_at, h, ensure_eq_ok_iff]

theorem check_expires_at_eq_error_iff {C : Type} (self : JWTClaims C)
    (now tol : Nat) (e : Error) :
    check_expires_at self now tol = .error e ↔
      ∃ T, self.expires_at = some T ∧ ¬now - tol ≤ T ∧
        e = .TokenHasExpired := by
  cases h : self.expires_at <;>
    simp [check_expires_at, h, ensure_eq_error_iff]

theorem check_required_issuer_eq_ok_iff {C : Type} (self : JWTClaims C)
    (o : VerificationOptions) :
    check_required_issuer self o = .ok () ↔
      ∀ x ∈ o.required_issuer, self.issuer = some x := by
  cases h : o.required_issuer <;> cases h2 : self.issuer <;>
    simp [check_required_issuer, h, h2, ensure_eq_ok_iff]

theorem check_required_issuer_eq_error_iff {C : Type} (self : JWTClaims C)
    (o : VerificationOptions) (e : Error) :
    check_required_issuer self o = .error e ↔
      ∃ x, o.required_issuer = some x ∧
        ((self.issuer = none ∧ e = .RequiredIssuerMissing) ∨
          (∃ i, self.issuer = some i ∧ i ≠ x ∧
            e = .RequiredIssuerMismatch)) := by
  cases h : o.required_issuer <;> cases h2 : self.issuer <;>
    simp [check_required_issuer, h, h2, ensure_eq_error_iff] <;>
    exact eq_comm

theorem check_required_subject_eq_ok_iff {C : Type} (self : JWTClaims C)
    (o : VerificationOptions) :
    check_required_subject self o = .ok () ↔
      ∀ x ∈ o.required_subject, self.subject = some x := by
  cases h : o.required_subject <;> cases h2 : self.subject <;>
    simp [check_required_subject, h, h2, ensure_eq_ok_iff]

theorem check_required_subject_eq_error_iff {C : Type} (self : JWTClaims C)
    (o : VerificationOptions) (e : Error) :
    check_required_subject self o = .error e ↔
      ∃ x, o.required_subject = some x ∧
        ((self.subject = none ∧ e = .RequiredSubjectMissing) ∨
          (∃ s, self.subject = some s ∧ s ≠ x ∧
            e = .RequiredSubjectMismatch)) := by
  cases h : o.required_subject <;> cases h2 : self.subject <;>
    simp [check_required_subject, h, h2, ensure_eq_error_iff] <;>
    exact eq_comm

theorem check_required_nonce_eq_ok_iff {C : Type} (self : JWTClaims C)
    (o : VerificationOptions) :
    check_required_nonce self o = .ok () ↔
      ∀ x ∈ o.required_nonce, self.nonce = some x := by
  cases h : o.required_nonce <;> cases h2 : self.nonce <;>
    simp [check_required_nonce, h, h2, ensure_eq_ok_iff]

theorem check_required_nonce_eq_error_iff {C : Type} (self : JWTClaims C)
    (o : VerificationOptions) (e : Error) :
    check_required_nonce self o = .error e ↔
      ∃ x, o.required_nonce = some x ∧
        ((self.nonce = none ∧ e = .RequiredNonceMissing) ∨
          (∃ s, self.nonce = some s ∧ s ≠ x ∧
            e = .RequiredNonceMismatch)) := by
  cases h : o.required_nonce <;> cases h2 : self.nonce <;>
    simp [check_required_nonce, h, h2, ensure_eq_error_iff] <;>
    exact eq_comm

theorem check_required_audiences_eq_ok_iff {C : Type} (self : JWTClaims C)
    (o : VerificationOptions) :
    check_required_audiences self o = .ok () ↔
      ∀ req ∈ o.required_audiences,
        (match self.audiences with
          | some auds => ∀ r ∈ req, r ∈ auds.to_set
          | none => req = ∅) := by
  cases h : o.required_audiences <;> cases h2 : self.audiences <;>
    simp [check_required_audiences, h, h2, ensure_eq_ok_iff] <;>
    split <;> simp_all

theorem check_required_audiences_eq_error_iff {C : Type} (self : JWTClaims C)
    (o : VerificationOptions) (e : Error) :
    check_required_audiences self o = .error e ↔
      ∃ req, o.required_audiences = some req ∧
        ((∃ auds, self.audiences = some auds ∧
            (∃ r ∈ req, r ∉ auds.to_set) ∧
            e = .RequiredAudiencesMismatch) ∨
          (self.audiences = none ∧ req ≠ ∅ ∧
            e = .RequiredAudiencesMissing)) := by
  cases h : o.required_audiences <;> cases h2 : self.audiences <;>
    simp [check_required_audiences, h, h2, ensure_eq_error_iff] <;>
    split <;> simp_all [eq_comm]

theorem validate_eq_ok_iff {C : Type} (self : JWTClaims C)
    (o : VerificationOptions) (now : Nat) :
    validate self o now = .ok () ↔
      (let tol := o.time_tolerance.getD DEFAULT_TIME_TOLERANCE_SECS
      check_reject_before o now = .ok () ∧
      check_issued_at self o now tol = .ok () ∧
      check_invalid_before self o now = .ok () ∧
      check_expires_at self now tol = .ok () ∧
      check_required_issuer self o = .ok () ∧
      check_required_subject self o = .ok () ∧
      check_required_nonce self o = .ok () ∧
      check_required_audiences self o = .ok ()) := by
  simp [validate, bind_unit_eq_ok_iff, and_assoc]

theorem validate_eq_error_iff {C : Type} (self : JWTClaims C)
    (o : VerificationOptions) (now : Nat) (e : Error) :
    validate self o now = .error e ↔
      (let tol := o.time_tolerance.getD DEFAULT_TIME_TOLERANCE_SECS
      check_reject_before o now = .error e ∨
      (check_reject_before o now = .ok () ∧
        (check_issued_at self o now tol = .error e ∨
        (check_issued_at self o now tol = .ok () ∧
          (check_invalid_before self o now = .error e ∨
          (check_invalid_before self o now = .ok () ∧
            (check_expires_at self now tol = .error e ∨
            (check_expires_at self now tol = .ok () ∧
              (check_required_issuer self o = .error e ∨
              (check_required_issuer self o = .ok () ∧
                (check_required_subject self o = .error e ∨
                (check_required_subject self o = .ok () ∧
                  (check_required_nonce self o = .error e ∨
                  (check_required_nonce self o = .ok () ∧
                    check_required_audiences self o = .error e)))))))))))))) := by
  simp [validate, bind_unit_eq_error_iff, bind_unit_eq_ok_iff]

/-! Claim theorems. -/

/-- C2: for every claim set and every `VerificationOptions` with
`reject_before` set, if `now > reject_before` then `validate` fails with
`OldTokenReused`, even when every other constraint is satisfied (the claim
set and the remaining options are arbitrary here); the check is performed
first, so no other rejection reason can be reported in that case. -/
theorem C2_reject_before_supersedes {C : Type} (self : JWTClaims C)
    (o : VerificationOptions) (now rb : Nat)
    (hrb : o.reject_before = some rb) (hnow : rb < now) :
    validate self o now = .error .OldTokenReused := by
  rw [validate_eq_error_iff]
  exact Or.inl ((check_reject_before_eq_error_iff o now _).mpr
    ⟨rb, hrb, by omega, rfl⟩)

/-- Witness for C2: a fresh, otherwise valid token is rejected as
`OldTokenReused` the moment `now` passes `reject_before`. -/
theorem C2_witness :
    validate (Claims.create 100 600)
      { time_tolerance := none, reject_before := some 50, max_validity := none,
        accept_future := false, required_issuer := none,
        required_subject := none, required_nonce := none,
        required_audiences := none } 110 = .error .OldTokenReused :=
  C2_reject_before_supersedes (Claims.create 100 600) _ 110 50 rfl (by decide)

/-- C7: for every clock reading `now` and duration `valid_for`,
`Claims::create` returns the claim set with `issued_at = invalid_before =
now`, `expires_at = now + valid_for`, `audiences_as_string = false` and every
other optional field absent, and `Claims::with_custom_claims` returns the
same claim set with the caller's payload in `custom`. -/
theorem C7_create_fields {C : Type} (payload : C) (now valid_for : Nat) :
    Claims.create now valid_for =
      { issued_at := some now, expires_at := some (now + valid_for),
        invalid_before := some now, issuer := none, subject := none,
        audiences := none, audiences_as_string := false, jwt_id := none,
        nonce := none, custom := {} } ∧
    Claims.with_custom_claims payload now valid_for =
      { issued_at := some now, expires_at := some (now + valid_for),
        invalid_before := some now, issuer := none, subject := none,
        audiences := none, audiences_as_string := false, jwt_id := none,
        nonce := none, custom := payload } :=
  ⟨rfl, rfl⟩

/-- C8: when `required_audiences` is present but empty, `validate` behaves
identically to `required_audiences` being absent — for any claim set (with
or without an audience claim), any validation time, and any second policy
that agrees on every other field — and in particular never fails with
`RequiredAudiencesMissing`. -/
theorem C8_empty_required_audiences {C : Type} (self : JWTClaims C)
    (o o2 : VerificationOptions) (now : Nat)
    (hra : o.required_audiences = some ∅)
    (hra2 : o2.required_audiences = none)
    (h1 : o2.time_tolerance = o.time_tolerance)
    (h2 : o2.reject_before = o.reject_before)
    (h3 : o2.max_validity = o.max_validity)
    (h4 : o2.accept_future = o.accept_future)
    (h5 : o2.required_issuer = o.required_issuer)
    (h6 : o2.required_subject = o.required_subject)
    (h7 : o2.required_nonce = o.required_nonce) :
    validate self o now = validate self o2 now ∧
    validate self o now ≠ .error .RequiredAudiencesMissing := by
  obtain ⟨tt, rb, mv, af, ri, rs, rn, ra⟩ := o
  obtain ⟨tt2, rb2, mv2, af2, ri2, rs2, rn2, ra2⟩ := o2
  simp only at hra hra2 h1 h2 h3 h4 h5 h6 h7
  subst h1 h2 h3 h4 h5 h6 h7 hra hra2
  have hchk : check_required_audiences self
      ⟨tt2, rb2, mv2, af2, ri2, rs2, rn2, some ∅⟩ = .ok () := by
    cases h9 : self.audiences <;>
      simp [check_required_audiences, h9, ensure_eq_ok_iff]
  have hchk2 : check_required_audiences self
      ⟨tt2, rb2, mv2, af2, ri2, rs2, rn2, none⟩ = .ok () := by
    simp [check_required_audiences]
  constructor
  · simp only [validate, check_reject_before, check_issued_at,
      check_invalid_before, check_expires_at, check_required_issuer,
      check_required_subject, check_required_nonce]
    rw [hchk, hchk2]
  · intro h
    rw [validate_eq_error_iff] at h
    simp only [check_reject_before_eq_error_iff,
      check_issued_at_eq_error_iff, check_invalid_before_eq_error_iff,
      check_expires_at_eq_error_iff, check_required_issuer_eq_error_iff,
      check_required_subject_eq_error_iff, check_required_nonce_eq_error_iff,
      hchk] at h
    simp_all

/-- Witness for C8: with `required_audiences = some ∅` on a token carrying
no audience claim, validation matches the policy with the field absent and
does not report `RequiredAudiencesMissing`. -/
theorem C8_witness :
    validate (Claims.create 100 600)
      { time_tolerance := none, reject_before := none, max_validity := none,
        accept_future := false, required_issuer := none,
        required_subject := none, required_nonce := none,
        required_audiences := some ∅ } 110 =
      validate (Claims.create 100 600)
        { time_tolerance := none, reject_before := none, max_validity := none,
          accept_future := false, required_issuer := none,
          required_subject := none, required_nonce := none,
          required_audiences := none } 110 ∧
    validate (Claims.create 100 600)
      { time_tolerance := none, reject_before := none, max_validity := none,
        accept_future := false, required_issuer := none,
        required_subject := none, required_nonce := none,
        required_audiences := some ∅ } 110 ≠
      .error .RequiredAudiencesMissing :=
  C8_empty_required_audiences (Claims.create 100 600) _ _ 110
    rfl rfl rfl rfl rfl rfl rfl rfl rfl

/-- C3: for a claim set with `expires_at = T`, when every other check of the
policy passes, `validate` succeeds exactly when `now ≤ T + time_tolerance`
and fails with `TokenHasExpired` exactly when `now > T + time_tolerance`;
the boundary `now = T + time_tolerance` is a success, and the check passes
iff `now - time_tolerance ≤ T` (saturating subtraction), which is equivalent
to `now ≤ T + time_tolerance`. -/
theorem C3_expiry_boundary {C : Type} (self : JWTClaims C)
    (o : VerificationOptions) (now T : Nat)
    (hexp : self.expires_at = some T)
    (hrb : check_reject_before o now = .ok ())
    (hiat : check_issued_at self o now
      (o.time_tolerance.getD DEFAULT_TIME_TOLERANCE_SECS) = .ok ())
    (hnbf : check_invalid_before self o now = .ok ())
    (hiss : check_required_issuer self o = .ok ())
    (hsub : check_required_subject self o = .ok ())
    (hnon : check_required_nonce self o = .ok ())
    (haud : check_required_audiences self o = .ok ()) :
    (now ≤ T + o.time_tolerance.getD DEFAULT_TIME_TOLERANCE_SECS →
      validate self o now = .ok ()) ∧
    (T + o.time_tolerance.getD DEFAULT_TIME_TOLERANCE_SECS < now →
      validate self o now = .error .TokenHasExpired) ∧
    (check_expires_at self now
        (o.time_tolerance.getD DEFAULT_TIME_TOLERANCE_SECS) = .ok () ↔
      now - o.time_tolerance.getD DEFAULT_TIME_TOLERANCE_SECS ≤ T) ∧
    (now - o.time_tolerance.getD DEFAULT_TIME_TOLERANCE_SECS ≤ T ↔
      now ≤ T + o.time_tolerance.getD DEFAULT_TIME_TOLERANCE_SECS) := by
  refine ⟨?_, ?_, ?_, by omega⟩
  · intro h
    rw [validate_eq_ok_iff]
    refine ⟨hrb, hiat, hnbf, ?_, hiss, hsub, hnon, haud⟩
    rw [check_expires_at_eq_ok_iff]
    simp only [hexp, Option.mem_def, Option.some.injEq, forall_eq]
    omega
  · intro h
    rw [validate_eq_error_iff]
    exact Or.inr ⟨hrb, Or.inr ⟨hiat, Or.inr ⟨hnbf, Or.inl
      ((check_expires_at_eq_error_iff _ _ _ _).mpr
        ⟨T, hexp, by omega, rfl⟩)⟩⟩⟩
  · rw [check_expires_at_eq_ok_iff]
    simp [hexp]

/-- Witness for C3: the spec's own scenario — a token created with
`valid_for = 0` at time 100, validated at time 1300 (1200 elapsed) with the
default 900-second tolerance, fails with `TokenHasExpired`. -/
theorem C3_witness :
    validate (Claims.create 100 0)
      { time_tolerance := none, reject_before := none, max_validity := none,
        accept_future := false, required_issuer := none,
        required_subject := none, required_nonce := none,
        required_audiences := none } 1300 = .error .TokenHasExpired :=
  (C3_expiry_boundary (Claims.create 100 0)
    { time_tolerance := none, reject_before := none, max_validity := none,
      accept_future := false, required_issuer := none,
      required_subject := none, required_nonce := none,
      required_audiences := none } 1300 100
    rfl rfl rfl rfl rfl rfl rfl rfl).2.1 (by decide)

/-- C9: with the time checks passing, a required issuer that is absent from
the claim set yields `RequiredIssuerMissing` while a present-but-unequal one
yields `RequiredIssuerMismatch`; symmetrically for the subject
(`RequiredSubjectMissing`/`RequiredSubjectMismatch`, once the issuer check
passes) and the nonce (`RequiredNonceMissing`/`RequiredNonceMismatch`, once
the issuer and subject checks pass). -/
theorem C9_missing_vs_mismatch {C : Type} (self : JWTClaims C)
    (o : VerificationOptions) (now : Nat)
    (hrb : check_reject_before o now = .ok ())
    (hiat : check_issued_at self o now
      (o.time_tolerance.getD DEFAULT_TIME_TOLERANCE_SECS) = .ok ())
    (hnbf : check_invalid_before self o now = .ok ())
    (hexp : check_expires_at self now
      (o.time_tolerance.getD DEFAULT_TIME_TOLERANCE_SECS) = .ok ()) :
    (∀ x, o.required_issuer = some x → self.issuer = none →
      validate self o now = .error .RequiredIssuerMissing) ∧
    (∀ x y, o.required_issuer = some x → self.issuer = some y → y ≠ x →
      validate self o now = .error .RequiredIssuerMismatch) ∧
    (∀ x, check_required_issuer self o = .ok () →
      o.required_subject = some x → self.subject = none →
      validate self o now = .error .RequiredSubjectMissing) ∧
    (∀ x y, check_required_issuer self o = .ok () →
      o.required_subject = some x → self.subject = some y → y ≠ x →
      validate self o now = .error .RequiredSubjectMismatch) ∧
    (∀ x, check_required_issuer self o = .ok () →
      check_required_subject self o = .ok () →
      o.required_nonce = some x → self.nonce = none →
      validate self o now = .error .RequiredNonceMissing) ∧
    (∀ x y, check_required_issuer self o = .ok () →
      check_required_subject self o = .ok () →
      o.required_nonce = some x → self.nonce = some y → y ≠ x →
      validate self o now = .error .RequiredNonceMismatch) := by
  refine ⟨?_, ?_, ?_, ?_, ?_, ?_⟩
  · intro x hx hnone
    rw [validate_eq_error_iff]
    exact Or.inr ⟨hrb, Or.inr ⟨hiat, Or.inr ⟨hnbf, Or.inr ⟨hexp, Or.inl
      ((check_required_issuer_eq_error_iff _ _ _).mpr
        ⟨x, hx, Or.inl ⟨hnone, rfl⟩⟩)⟩⟩⟩⟩
  · intro x y hx hy hne
    rw [validate_eq_error_iff]
    exact Or.inr ⟨hrb, Or.inr ⟨hiat, Or.inr ⟨hnbf, Or.inr ⟨hexp, Or.inl
      ((check_required_issuer_eq_error_iff _ _ _).mpr
        ⟨x, hx, Or.inr ⟨y, hy, hne, rfl⟩⟩)⟩⟩⟩⟩
  · intro x hiss hx hnone
    rw [validate_eq_error_iff]
    exact Or.inr ⟨hrb, Or.inr ⟨hiat, Or.inr ⟨hnbf, Or.inr ⟨hexp, Or.inr
      ⟨hiss, Or.inl ((check_required_subject_eq_error_iff _ _ _).mpr
        ⟨x, hx, Or.inl ⟨hnone, rfl⟩⟩)⟩⟩⟩⟩⟩
  · intro x y hiss hx hy hne
    rw [validate_eq_error_iff]
    exact Or.inr ⟨hrb, Or.inr ⟨hiat, Or.inr ⟨hnbf, Or.inr ⟨hexp, Or.inr
      ⟨hiss, Or.inl ((check_required_subject_eq_error_iff _ _ _).mpr
        ⟨x, hx, Or.inr ⟨y, hy, hne, rfl⟩⟩)⟩⟩⟩⟩⟩
  · intro x hiss hsub hx hnone
    rw [validate_eq_error_iff]
    exact Or.inr ⟨hrb, Or.inr ⟨hiat, Or.inr ⟨hnbf, Or.inr ⟨hexp, Or.inr
      ⟨hiss, Or.inr ⟨hsub, Or.inl
        ((check_required_nonce_eq_error_iff _ _ _).mpr
          ⟨x, hx, Or.inl ⟨hnone, rfl⟩⟩)⟩⟩⟩⟩⟩⟩
  · intro x y hiss hsub hx hy hne
    rw [validate_eq_error_iff]
    exact Or.inr ⟨hrb, Or.inr ⟨hiat, Or.inr ⟨hnbf, Or.inr ⟨hexp, Or.inr
      ⟨hiss, Or.inr ⟨hsub, Or.inl
        ((check_required_nonce_eq_error_iff _ _ _).mpr
          ⟨x, hx, Or.inr ⟨y, hy, hne, rfl⟩⟩)⟩⟩⟩⟩⟩⟩

/-- Witness for C9: a token with no issuer claim, checked against
`required_issuer = some "x"`, fails with `RequiredIssuerMissing`. -/
theorem C9_witness :
    validate (Claims.create 100 600)
      { time_tolerance := none, reject_before := none, max_validity := none,
        accept_future := false, required_issuer := some "x",
        required_subject := none, required_nonce := none,
        required_audiences := none } 110 = .error .RequiredIssuerMissing :=
  (C9_missing_vs_mismatch (Claims.create 100 600)
    { time_tolerance := none, reject_before := none, max_validity := none,
      accept_future := false, required_issuer := some "x",
      required_subject := none, required_nonce := none,
      required_audiences := none } 110
    rfl rfl rfl rfl).1 "x" rfl rfl

/-- C4: for a claim set with `issued_at = t` and the `reject_before` check
passing, `validate` fails with `ClockDrift` whenever
`t > now + time_tolerance`; when `max_validity = m` is additionally set, it
fails with `TokenIsTooOld` whenever `now > t` and `now - t > m`; conversely,
a `TokenIsTooOld` failure can only arise from that age condition, so a token
issued at or after `now` (in particular one issued in the future within the
clock-drift tolerance) is never rejected by the age check. -/
theorem C4_issued_at_checks {C : Type} (self : JWTClaims C)
    (o : VerificationOptions) (now t : Nat)
    (hiat : self.issued_at = some t)
    (hrb : check_reject_before o now = .ok ()) :
    (¬t ≤ now + o.time_tolerance.getD DEFAULT_TIME_TOLERANCE_SECS →
      validate self o now = .error .ClockDrift) ∧
    (∀ m, t ≤ now + o.time_tolerance.getD DEFAULT_TIME_TOLERANCE_SECS →
      o.max_validity = some m → ¬now ≤ t → ¬now - t ≤ m →
      validate self o now = .error .TokenIsTooOld) ∧
    (validate self o now = .error .TokenIsTooOld →
      ∃ m, o.max_validity = some m ∧ t < now ∧ m < now - t) ∧
    (now ≤ t → validate self o now ≠ .error .TokenIsTooOld) := by
  have hage : validate self o now = .error .TokenIsTooOld →
      ∃ m, o.max_validity = some m ∧ t < now ∧ m < now - t := by
    intro h
    rw [validate_eq_error_iff] at h
    simp only [check_reject_before_eq_error_iff,
      check_issued_at_eq_error_iff, check_invalid_before_eq_error_iff,
      check_expires_at_eq_error_iff, check_required_issuer_eq_error_iff,
      check_required_subject_eq_error_iff, check_required_nonce_eq_error_iff,
      check_required_audiences_eq_error_iff, hiat] at h
    simp only [Option.some.injEq, reduceCtorEq, and_false, false_and,
      exists_false, false_or, or_false, exists_and_left, exists_eq_left,
      and_true, exists_const] at h
    obtain ⟨-, t1, rfl, h1, m, hm, h2, h3⟩ := h
    exact ⟨m, hm, by omega, by omega⟩
  refine ⟨?_, ?_, hage, ?_⟩
  · intro h
    rw [validate_eq_error_iff]
    exact Or.inr ⟨hrb, Or.inl ((check_issued_at_eq_error_iff _ _ _ _ _).mpr
      ⟨t, hiat, Or.inl ⟨h, rfl⟩⟩)⟩
  · intro m h1 hm h2 h3
    rw [validate_eq_error_iff]
    exact Or.inr ⟨hrb, Or.inl ((check_issued_at_eq_error_iff _ _ _ _ _).mpr
      ⟨t, hiat, Or.inr ⟨h1, m, hm, h2, h3, rfl⟩⟩)⟩
  · intro hfut h
    obtain ⟨m, -, h1, -⟩ := hage h
    omega

/-- Witness for C4: a token claiming to be issued far in the future (at
5000, checked at 100 with the default 900-second tolerance) fails with
`ClockDrift`. -/
theorem C4_witness :
    validate (Claims.create 5000 600)
      { time_tolerance := none, reject_before := none, max_validity := none,
        accept_future := false, required_issuer := none,
        required_subject := none, required_nonce := none,
        required_audiences := none } 100 = .error .ClockDrift :=
  (C4_issued_at_checks (Claims.create 5000 600)
    { time_tolerance := none, reject_before := none, max_validity := none,
      accept_future := false, required_issuer := none,
      required_subject := none, required_nonce := none,
      required_audiences := none } 100 5000 rfl rfl).1 (by decide)

/-- C1 counterexample: a token whose `issued_at` (200) is strictly after
`reject_before` (100) and which satisfies every other constraint (shown by
the successful run with `reject_before` cleared) is nonetheless rejected
with `OldTokenReused` when validated at `now = 150 > 100`: the code compares
the validation time, not the issue time, against `reject_before`. -/
theorem C1_counterexample :
    (100 : Nat) < 200 ∧
    validate
      ({ issued_at := some 200, expires_at := none, invalid_before := none,
         issuer := none, subject := none, audiences := none,
         audiences_as_string := false, jwt_id := none, nonce := none,
         custom := {} } : JWTClaims NoCustomClaims)
      { time_tolerance := none, reject_before := none, max_validity := none,
        accept_future := false, required_issuer := none,
        required_subject := none, required_nonce := none,
        required_audiences := none } 150 = .ok () ∧
    validate
      ({ issued_at := some 200, expires_at := none, invalid_before := none,
         issuer := none, subject := none, audiences := none,
         audiences_as_string := false, jwt_id := none, nonce := none,
         custom := {} } : JWTClaims NoCustomClaims)
      { time_tolerance := none, reject_before := some 100, max_validity := none,
        accept_future := false, required_issuer := none,
        required_subject := none, required_nonce := none,
        required_audiences := none } 150 = .error .OldTokenReused :=
  ⟨by decide, rfl, rfl⟩

/-- C1 (amended): for every claim set with `issued_at` present and every
`VerificationOptions` with `reject_before` set, all other policy constraints
satisfied, `validate` fails with `OldTokenReused` exactly when the
validation time `now` is strictly after `reject_before`; the token's
`issued_at` plays no role in this check. -/
theorem C1_reject_before_iff {C : Type} (self : JWTClaims C)
    (o : VerificationOptions) (now rb t : Nat)
    (hiat : self.issued_at = some t)
    (hrb : o.reject_before = some rb)
    (h2 : check_issued_at self o now
      (o.time_tolerance.getD DEFAULT_TIME_TOLERANCE_SECS) = .ok ())
    (h3 : check_invalid_before self o now = .ok ())
    (h4 : check_expires_at self now
      (o.time_tolerance.getD DEFAULT_TIME_TOLERANCE_SECS) = .ok ())
    (h5 : check_required_issuer self o = .ok ())
    (h6 : check_required_subject self o = .ok ())
    (h7 : check_required_nonce self o = .ok ())
    (h8 : check_required_audiences self o = .ok ()) :
    validate self o now = .error .OldTokenReused ↔ rb < now := by
  constructor
  · intro h
    by_contra hgt
    have hok : validate self o now = .ok () := by
      rw [validate_eq_ok_iff]
      refine ⟨?_, h2, h3, h4, h5, h6, h7, h8⟩
      rw [check_reject_before_eq_ok_iff]
      simp only [hrb, Option.mem_def, Option.some.injEq, forall_eq]
      omega
    rw [hok] at h
    exact Except.noConfusion h
  · intro h
    rw [validate_eq_error_iff]
    exact Or.inl ((check_reject_before_eq_error_iff _ _ _).mpr
      ⟨rb, hrb, by omega, rfl⟩)

/-- Witness for the amended C1 at the counterexample's input: rejection is
governed by `now = 150` against `reject_before = 100`, not by
`issued_at = 200`. -/
theorem C1_witness :
    (validate
      ({ issued_at := some 200, expires_at := none, invalid_before := none,
         issuer := none, subject := none, audiences := none,
         audiences_as_string := false, jwt_id := none, nonce := none,
         custom := {} } : JWTClaims NoCustomClaims)
      { time_tolerance := none, reject_before := some 100, max_validity := none,
        accept_future := false, required_issuer := none,
        required_subject := none, required_nonce := none,
        required_audiences := none } 150 = .error .OldTokenReused ↔
      100 < 150) :=
  C1_reject_before_iff
    ({ issued_at := some 200, expires_at := none, invalid_before := none,
       issuer := none, subject := none, audiences := none,
       audiences_as_string := false, jwt_id := none, nonce := none,
       custom := {} } : JWTClaims NoCustomClaims)
    { time_tolerance := none, reject_before := some 100, max_validity := none,
      accept_future := false, required_issuer := none,
      required_subject := none, required_nonce := none,
      required_audiences := none } 150 100 200
    rfl rfl rfl rfl rfl rfl rfl rfl rfl

/-- C5 counterexample: the one-element audience set containing the empty
string does not round-trip.  Set-to-string conversion stores `AsString ""`,
and string-to-set conversion maps `""` back to the empty set, not to
`{""}`. -/
theorem C5_counterexample :
    ({""} : Finset String) ≠ (∅ : Finset String) ∧
    ({ issued_at := none, expires_at := none, invalid_before := none,
       issuer := none, subject := none, audiences := some (.AsSet {""}),
       audiences_as_string := false, jwt_id := none, nonce := none,
       custom := {} } : JWTClaims NoCustomClaims).set_audiences_as_string
        true =
      .ok { issued_at := none, expires_at := none, invalid_before := none,
            issuer := none, subject := none,
            audiences := some (.AsString ""), audiences_as_string := true,
            jwt_id := none, nonce := none, custom := {} } ∧
    ({ issued_at := none, expires_at := none, invalid_before := none,
       issuer := none, subject := none, audiences := some (.AsString ""),
       audiences_as_string := true, jwt_id := none, nonce := none,
       custom := {} } : JWTClaims NoCustomClaims).set_audiences_as_string
        false =
      .ok { issued_at := none, expires_at := none, invalid_before := none,
            issuer := none, subject := none,
            audiences := some (.AsSet ∅), audiences_as_string := false,
            jwt_id := none, nonce := none, custom := {} } :=
  ⟨by decide,
    by simp [JWTClaims.set_audiences_as_string, convert_audiences_format,
      Finset.sort_singleton],
    rfl⟩

/-- C5 (amended): a one-element audience set whose element is a non-empty
string round-trips through string form and back; a set with more than one
element fails the set-to-string conversion with `TooManyAudiences`; and the
string-to-set conversion never fails, mapping the empty string to the empty
set and a non-empty string to its one-element set.  (The one-element set
containing the empty string is the sole round-trip exception: it comes back
as the empty set.) -/
theorem C5_audience_roundtrip {C : Type} (self : JWTClaims C) :
    (∀ a : String, a ≠ "" → self.audiences = some (.AsSet {a}) →
      self.set_audiences_as_string true =
        .ok { self with
              audiences := some (.AsString a)
              audiences_as_string := true } ∧
      ({ self with
         audiences := some (.AsString a)
         audiences_as_string := true } : JWTClaims C).set_audiences_as_string
          false =
        .ok { self with
              audiences := some (.AsSet {a})
              audiences_as_string := false }) ∧
    (∀ s : Finset String, 1 < s.card → self.audiences = some (.AsSet s) →
      self.set_audiences_as_string true = .error .TooManyAudiences) ∧
    (∀ str : String, self.audiences = some (.AsString str) →
      self.set_audiences_as_string false =
        .ok { self with
              audiences := some (.AsSet (if str = "" then ∅ else {str}))
              audiences_as_string := false }) ∧
    (∀ e : Error, self.set_audiences_as_string false ≠ .error e) := by
  refine ⟨?_, ?_, ?_, ?_⟩
  · intro a ha haud
    constructor
    · simp [JWTClaims.set_audiences_as_string, convert_audiences_format,
        haud, Finset.sort_singleton]
    · simp [JWTClaims.set_audiences_as_string, convert_audiences_format, ha]
  · intro s hs haud
    simp [JWTClaims.set_audiences_as_string, convert_audiences_format,
      haud, hs]
  · intro str haud
    simp [JWTClaims.set_audiences_as_string, convert_audiences_format, haud]
  · intro e h
    rcases haud : self.audiences with - | (s | str) <;>
      simp [JWTClaims.set_audiences_as_string, convert_audiences_format,
        haud] at h

/-- Witness for the amended C5: the set `{"aud"}` converts to the string
`"aud"` and back to the set `{"aud"}`. -/
theorem C5_witness :
    ({ issued_at := none, expires_at := none, invalid_before := none,
       issuer := none, subject := none, audiences := some (.AsSet {"aud"}),
       audiences_as_string := false, jwt_id := none, nonce := none,
       custom := {} } : JWTClaims NoCustomClaims).set_audiences_as_string
        true =
      .ok { issued_at := none, expires_at := none, invalid_before := none,
            issuer := none, subject := none,
            audiences := some (.AsString "aud"), audiences_as_string := true,
            jwt_id := none, nonce := none, custom := {} } ∧
    ({ issued_at := none, expires_at := none, invalid_before := none,
       issuer := none, subject := none, audiences := some (.AsString "aud"),
       audiences_as_string := true, jwt_id := none, nonce := none,
       custom := {} } : JWTClaims NoCustomClaims).set_audiences_as_string
        false =
      .ok { issued_at := none, expires_at := none, invalid_before := none,
            issuer := none, subject := none,
            audiences := some (.AsSet {"aud"}),
            audiences_as_string := false, jwt_id := none, nonce := none,
            custom := {} } :=
  (C5_audience_roundtrip
    ({ issued_at := none, expires_at := none, invalid_before := none,
       issuer := none, subject := none, audiences := some (.AsSet {"aud"}),
       audiences_as_string := false, jwt_id := none, nonce := none,
       custom := {} } : JWTClaims NoCustomClaims)).1 "aud" (by decide) rfl

theorem convert_eq_error_iff {C : Type} (self : JWTClaims C) (e : Error) :
    convert_audiences_format self = .error e ↔
      self.audiences_as_string = true ∧
        ∃ s, self.audiences = some (.AsSet s) ∧ 1 < s.card ∧
          e = .TooManyAudiences := by
  cases hf : self.audiences_as_string <;>
    rcases haud : self.audiences with - | (s | str) <;>
    simp [convert_audiences_format, hf, haud]
  split
  next hlt => simp [hlt]; exact eq_comm
  next hlt => simp [hlt]

theorem convert_preserves_mode_invariant {C : Type} {self c2 : JWTClaims C}
    (h : convert_audiences_format self = .ok c2) : mode_invariant c2 := by
  cases hf : self.audiences_as_string <;>
    rcases haud : self.audiences with - | (s | str) <;>
    simp [convert_audiences_format, hf, haud, ite_eq_iff] at h
  all_goals first
    | (subst h; simp [mode_invariant, haud, hf])
    | (obtain ⟨hc, h⟩ := h; subst h; simp [mode_invariant, haud, hf])

theorem mode_invariant_congr {C C2 : Type} {a : JWTClaims C}
    {b : JWTClaims C2} (h1 : a.audiences = b.audiences)
    (h2 : a.audiences_as_string = b.audiences_as_string)
    (h : mode_invariant a) : mode_invariant b := by
  unfold mode_invariant at h ⊢
  rw [← h1, ← h2]
  exact h

/-- C6 counterexample: the consuming builders do not hand the claim set back
unchanged on failure — on a `TooManyAudiences` error nothing is handed back
at all, and at the failure point the consumed claim set has already been
mutated: `audiences_as_string(true)` on a two-element set has flipped the
mode flag from `false` to `true` before the conversion bails, and
`with_audiences` on a string-mode claim set has already overwritten the
audiences field (here from `none` to the new two-element set). -/
theorem C6_counterexample :
    (({ issued_at := none, expires_at := none, invalid_before := none,
        issuer := none, subject := none,
        audiences := some (.AsSet {"a", "b"}), audiences_as_string := false,
        jwt_id := none, nonce := none,
        custom := {} } : JWTClaims NoCustomClaims).set_audiences_as_string_run
        true).1 = .error .TooManyAudiences ∧
    (({ issued_at := none, expires_at := none, invalid_before := none,
        issuer := none, subject := none,
        audiences := some (.AsSet {"a", "b"}), audiences_as_string := false,
        jwt_id := none, nonce := none,
        custom := {} } : JWTClaims NoCustomClaims).set_audiences_as_string_run
        true).2.audiences_as_string = true ∧
    (({ issued_at := none, expires_at := none, invalid_before := none,
        issuer := none, subject := none, audiences := none,
        audiences_as_string := true, jwt_id := none, nonce := none,
        custom := {} } : JWTClaims NoCustomClaims).with_audiences_run
        {"a", "b"}).1 = .error .TooManyAudiences ∧
    (({ issued_at := none, expires_at := none, invalid_before := none,
        issuer := none, subject := none, audiences := none,
        audiences_as_string := true, jwt_id := none, nonce := none,
        custom := {} } : JWTClaims NoCustomClaims).with_audiences_run
        {"a", "b"}).2.audiences = some (.AsSet {"a", "b"}) :=
  ⟨rfl, rfl, rfl, rfl⟩

/-- C6 (amended): when `audiences_as_string(b)` or `with_audiences(s)` fails
with `TooManyAudiences` — the only error they can return — no claim set is
returned alongside the error: the consumed claim set, which at the failure
point already carries the newly staged flag (respectively audiences value),
is dropped.  The caller therefore never observes a half-converted audience
representation: every claim set these methods do return satisfies the
mode/variant invariant. -/
theorem C6_no_partial_application {C : Type} (self : JWTClaims C)
    (b : Bool) (s : Finset String) :
    ((self.set_audiences_as_string_run b).1 =
      self.set_audiences_as_string b) ∧
    ((self.with_audiences_run s).1 = self.with_audiences s) ∧
    (∀ e, self.set_audiences_as_string b = .error e →
      e = .TooManyAudiences) ∧
    (∀ e, self.with_audiences s = .error e → e = .TooManyAudiences) ∧
    (∀ c2, self.set_audiences_as_string b = .ok c2 → mode_invariant c2) ∧
    (∀ c2, self.with_audiences s = .ok c2 → mode_invariant c2) ∧
    (∀ e, (self.set_audiences_as_string_run b).1 = .error e →
      (self.set_audiences_as_string_run b).2.audiences_as_string = b ∧
      (self.set_audiences_as_string_run b).2.audiences = self.audiences) ∧
    (∀ e, (self.with_audiences_run s).1 = .error e →
      (self.with_audiences_run s).2.audiences = some (.AsSet s) ∧
      (self.with_audiences_run s).2.audiences_as_string =
        self.audiences_as_string) := by
  refine ⟨?_, ?_, ?_, ?_, ?_, ?_, ?_, ?_⟩
  · unfold JWTClaims.set_audiences_as_string_run JWTClaims.set_audiences_as_string
    cases hc : convert_audiences_format
      { self with audiences_as_string := b } <;> simp [hc]
  · unfold JWTClaims.with_audiences_run JWTClaims.with_audiences
    cases hc : convert_audiences_format
      { self with audiences := some (.AsSet s) } <;> simp [hc]
  · intro e h
    simp only [JWTClaims.set_audiences_as_string] at h
    rw [convert_eq_error_iff] at h
    obtain ⟨-, -, -, -, he⟩ := h
    exact he
  · intro e h
    simp only [JWTClaims.with_audiences] at h
    rw [convert_eq_error_iff] at h
    obtain ⟨-, -, -, -, he⟩ := h
    exact he
  · intro c2 h
    simp only [JWTClaims.set_audiences_as_string] at h
    exact convert_preserves_mode_invariant h
  · intro c2 h
    simp only [JWTClaims.with_audiences] at h
    exact convert_preserves_mode_invariant h
  · intro e h
    unfold JWTClaims.set_audiences_as_string_run at h ⊢
    cases hc : convert_audiences_format
        { self with audiences_as_string := b } <;>
      simp [hc] at h ⊢
  · intro e h
    unfold JWTClaims.with_audiences_run at h ⊢
    cases hc : convert_audiences_format
        { self with audiences := some (.AsSet s) } <;>
      simp [hc] at h ⊢

/-- Witness for the amended C6: a successful `with_audiences` call on a
fresh claim set returns a claim set satisfying the mode/variant invariant. -/
theorem C6_witness :
    mode_invariant
      ({ issued_at := some 5, expires_at := some 15, invalid_before := some 5,
         issuer := none, subject := none,
         audiences := some (.AsSet {"x"}), audiences_as_string := false,
         jwt_id := none, nonce := none,
         custom := NoCustomClaims.mk } : JWTClaims NoCustomClaims) :=
  (C6_no_partial_application (Claims.create 5 10) false {"x"}).2.2.2.2.2.1
    _ rfl

/-- C10: every claim set built by `Claims::create` or
`Claims::with_custom_claims` followed by any sequence of successful builder
operations satisfies the mode/variant invariant: when an audience value is
present its variant is `AsString` exactly when `audiences_as_string` is
`true` and `AsSet` exactly when it is `false`. -/
theorem C10_mode_invariant {C : Type} {self : JWTClaims C}
    (h : Reachable self) : mode_invariant self := by
  induction h with
  | create now valid_for => simp [mode_invariant, Claims.create]
  | with_custom_claims custom_claims now valid_for =>
    simp [mode_invariant, Claims.with_custom_claims]
  | set_invalid_before t h ih => exact mode_invariant_congr rfl rfl ih
  | with_issuer s h ih => exact mode_invariant_congr rfl rfl ih
  | with_subject s h ih => exact mode_invariant_congr rfl rfl ih
  | with_jwt_id s h ih => exact mode_invariant_congr rfl rfl ih
  | with_nonce s h ih => exact mode_invariant_congr rfl rfl ih
  | create_nonce s h ih => exact mode_invariant_congr rfl rfl ih
  | with_audiences audiences h hok ih =>
    simp only [JWTClaims.with_audiences] at hok
    exact convert_preserves_mode_invariant hok
  | set_audiences_as_string b h hok ih =>
    simp only [JWTClaims.set_audiences_as_string] at hok
    exact convert_preserves_mode_invariant hok

/-- Witness for C10: a claim set reached by `create`, then a successful
`with_audiences`, then `with_issuer`, satisfies the mode/variant
invariant. -/
theorem C10_witness :
    mode_invariant
      (({ issued_at := some 5, expires_at := some 15, invalid_before := some 5,
          issuer := none, subject := none,
          audiences := some (.AsSet {"x"}), audiences_as_string := false,
          jwt_id := none, nonce := none,
          custom := NoCustomClaims.mk } : JWTClaims
            NoCustomClaims).with_issuer "svc") :=
  C10_mode_invariant
    (Reachable.with_issuer "svc"
      (Reachable.with_audiences {"x"} (Reachable.create 5 10) rfl))

end JwtSimple
